import Mathlib

/-!
Verification of `hyperdbg/hprdbghv/code/vmm/vmx/VmxRegions.c`.

The file shallowly embeds the allocation routines for the VMX regions
(VMXON region, VMCS region, VMM stack, MSR bitmap, I/O bitmaps, and the
invalid-MSR probe bitmap).  Platform primitives that the C code consumes
(`CrsAllocateContiguousZeroedMemory`, `ExAllocatePoolWithTag`,
`VirtualAddressToPhysicalAddress`, `__readmsr`, `__vmx_on`) are external
collaborators; each routine is parameterised by an environment recording
the outcome those primitives produce during the call.  Pointers are
modelled as `Nat` with `0` encoding `NULL`, matching the C null pointer.
Machine-integer arithmetic on addresses (`ULONG_PTR`, 64-bit) is done in
`Nat` with an explicit reduction modulo `2 ^ 64` where the C expression
can wrap.
-/

set_option maxRecDepth 4096

/-- Modelled from the spec: the constant `ALIGNMENT_PAGE_SIZE` comes from a
header that is not under `src/`; the spec fixes the page size at 4096 bytes. -/
def ALIGNMENT_PAGE_SIZE : Nat := 4096

/-- Modelled from the spec: the constant `PAGE_SIZE` comes from a header that
is not under `src/`; the spec fixes it at 4096 bytes (one page). -/
def PAGE_SIZE : Nat := 4096

/-- The aligned-address computation appearing in `VmxAllocateVmxonRegion` and
`VmxAllocateVmcsRegion`:
`(addr + ALIGNMENT_PAGE_SIZE - 1) & ~(ALIGNMENT_PAGE_SIZE - 1)` evaluated in
64-bit `ULONG_PTR` arithmetic.  The twos-complement mask `~4095` on a 64-bit
integer is `2 ^ 64 - 4096`, and the addition wraps modulo `2 ^ 64`. -/
def alignUp (a : Nat) : Nat :=
  ((a + (ALIGNMENT_PAGE_SIZE - 1)) % 2 ^ 64) &&& (2 ^ 64 - ALIGNMENT_PAGE_SIZE)

/-- Modelled from the spec: the `VmcsRevisionId` bitfield of
`IA32_VMX_BASIC_REGISTER` is declared in a vendored header that is not under
`src/`; per the spec it is the low 31 bits of the capability register value. -/
def vmcsRevisionId (v : Nat) : Nat := v % 2 ^ 31

/-- Clearing the low 12 bits with the 64-bit mask is truncated division by the
page size: for any `x < 2 ^ 64`, `x &&& ~4095 = 4096 * (x / 4096)`. -/
theorem and_high_mask (x : Nat) (hx : x < 2 ^ 64) :
    x &&& (2 ^ 64 - 4096) = 4096 * (x / 4096) := by
  have hmask : (2 : Nat) ^ 64 - 4096 = (2 ^ 52 - 1) <<< 12 := by
    rw [Nat.shiftLeft_eq]
    norm_num
  have hdiv : 4096 * (x / 4096) = (x >>> 12) <<< 12 := by
    rw [Nat.shiftLeft_eq, Nat.shiftRight_eq_div_pow]
    have h4096 : (4096 : Nat) = 2 ^ 12 := by norm_num
    rw [h4096, Nat.mul_comm]
  rw [hmask, hdiv]
  apply Nat.eq_of_testBit_eq
  intro i
  rw [Nat.testBit_and, Nat.testBit_shiftLeft, Nat.testBit_shiftLeft,
    Nat.testBit_shiftRight, Nat.testBit_two_pow_sub_one]
  by_cases h12 : 12 ≤ i
  · by_cases h64 : i < 64
    · have hsum : 12 + (i - 12) = i := by omega
      simp [h12, hsum, show i - 12 < 52 by omega]
    · have hxb : x.testBit i = false := by
        apply Nat.testBit_lt_two_pow
        exact lt_of_lt_of_le hx (Nat.pow_le_pow_right (by norm_num) (by omega))
      have hxb2 : x.testBit (12 + (i - 12)) = false := by
        have hsum : 12 + (i - 12) = i := by omega
        rw [hsum, hxb]
      simp [hxb, hxb2, show ¬(i - 12 < 52) by omega]
  · simp [h12]

/-- When the page-rounding addition does not wrap, `alignUp a` equals
`4096 * ((a + 4095) / 4096)`. -/
theorem alignUp_eq (a : Nat) (h : a + (ALIGNMENT_PAGE_SIZE - 1) < 2 ^ 64) :
    alignUp a = 4096 * ((a + 4095) / 4096) := by
  unfold alignUp ALIGNMENT_PAGE_SIZE at *
  rw [Nat.mod_eq_of_lt h]
  exact and_high_mask _ h

/-- Diagnostic events emitted through `LogError` / `LogDebugInfo`, one
constructor per distinct message in `VmxRegions.c`, so that allocation
failure and activation failure are distinguishable in the log. -/
inductive LogEvent
  | errAllocVmxon
  | errVmxonFailed (status : Nat)
  | errAllocVmcs
  | errAllocVmmStack
  | errAllocMsrBitmap
  | errAllocIoBitmapA
  | errAllocIoBitmapB
  | dbgVmxonRegion (addr : Nat)
  | dbgVmxonRegionPhys (addr : Nat)
  | dbgVmcsRegion (addr : Nat)
  | dbgVmcsRegionPhys (addr : Nat)
  | dbgRevisionId (rev : Nat)
  | dbgVmmStack (addr : Nat)
  | dbgMsrBitmap (virt phys : Nat)
  | dbgIoBitmapA (virt phys : Nat)
  | dbgIoBitmapB (virt phys : Nat)
  deriving DecidableEq

/-- Modelled from the spec: the fields of `VIRTUAL_MACHINE_STATE` (the
per-processor virtualization context, declared in a header not under `src/`)
that `VmxRegions.c` reads or writes.  Each pointer/address field is a `Nat`
with `0` encoding `NULL`. -/
structure VIRTUAL_MACHINE_STATE where
  VmxonRegionPhysicalAddress : Nat
  VmxonRegionVirtualAddress : Nat
  VmcsRegionPhysicalAddress : Nat
  VmcsRegionVirtualAddress : Nat
  VmmStack : Nat
  MsrBitmapVirtualAddress : Nat
  MsrBitmapPhysicalAddress : Nat
  IoBitmapVirtualAddressA : Nat
  IoBitmapPhysicalAddressA : Nat
  IoBitmapVirtualAddressB : Nat
  IoBitmapPhysicalAddressB : Nat
  deriving DecidableEq

/-- The empty (zero-initialized) processor context a caller hands to the
allocators at the start of per-processor initialization. -/
def vcpuEmpty : VIRTUAL_MACHINE_STATE :=
  { VmxonRegionPhysicalAddress := 0
    VmxonRegionVirtualAddress := 0
    VmcsRegionPhysicalAddress := 0
    VmcsRegionVirtualAddress := 0
    VmmStack := 0
    MsrBitmapVirtualAddress := 0
    MsrBitmapPhysicalAddress := 0
    IoBitmapVirtualAddressA := 0
    IoBitmapPhysicalAddressA := 0
    IoBitmapVirtualAddressB := 0
    IoBitmapPhysicalAddressB := 0 }

/-- Outcome of the platform primitives consumed by `VmxAllocateVmxonRegion`:
the buffer returned by `CrsAllocateContiguousZeroedMemory` (0 = `NULL`), the
virtual-to-physical translation, the `IA32_VMX_BASIC` value read by
`__readmsr`, and the `UINT8` status returned by `__vmx_on`. -/
structure VmxonEnv where
  alloc : Nat
  virtToPhys : Nat → Nat
  vmxBasic : Nat
  vmxonStatus : Nat

/-- Outcome of the platform primitives consumed by `VmxAllocateVmcsRegion`. -/
structure VmcsEnv where
  alloc : Nat
  virtToPhys : Nat → Nat
  vmxBasic : Nat

/-- Result of a region allocator: the `BOOLEAN` return value, the updated
context, the updated memory (qword stored at each byte address), and the
diagnostics emitted, in order. -/
structure RegionResult where
  ret : Bool
  vcpu : VIRTUAL_MACHINE_STATE
  mem : Nat → Nat
  logs : List LogEvent

/-- Shallow embedding of `VmxAllocateVmxonRegion` (VmxRegions.c:44-91):
allocate `2*VMXON_SIZE + ALIGNMENT_PAGE_SIZE` bytes, align virtual and
physical addresses up to the page boundary, stamp the revision identifier at
offset 0 of the aligned region, execute `vmxon`, and on success store the
aligned physical address and the original unaligned buffer in the context. -/
def VmxAllocateVmxonRegion (env : VmxonEnv) (VCpu : VIRTUAL_MACHINE_STATE)
    (mem : Nat → Nat) : RegionResult :=
  let VmxonRegion := env.alloc
  if VmxonRegion = 0 then
    { ret := false, vcpu := VCpu, mem := mem, logs := [LogEvent.errAllocVmxon] }
  else
    let VmxonRegionPhysicalAddr := env.virtToPhys VmxonRegion
    let AlignedVmxonRegion := alignUp VmxonRegion
    let AlignedVmxonRegionPhysicalAddr := alignUp VmxonRegionPhysicalAddr
    let rev := vmcsRevisionId env.vmxBasic
    let mem1 := fun a => if a = AlignedVmxonRegion then rev else mem a
    let logs1 := [LogEvent.dbgVmxonRegion AlignedVmxonRegion,
                  LogEvent.dbgVmxonRegionPhys AlignedVmxonRegionPhysicalAddr,
                  LogEvent.dbgRevisionId rev]
    if env.vmxonStatus ≠ 0 then
      { ret := false, vcpu := VCpu, mem := mem1,
        logs := logs1 ++ [LogEvent.errVmxonFailed env.vmxonStatus] }
    else
      { ret := true,
        vcpu := { VCpu with
          VmxonRegionPhysicalAddress := AlignedVmxonRegionPhysicalAddr,
          VmxonRegionVirtualAddress := VmxonRegion },
        mem := mem1, logs := logs1 }

/-- Shallow embedding of `VmxAllocateVmcsRegion` (VmxRegions.c:104-161):
identical to the VMXON allocator but with no `vmxon` step; after a
successful allocation it always stores the aligned physical address and the
original unaligned buffer in the context and returns true. -/
def VmxAllocateVmcsRegion (env : VmcsEnv) (VCpu : VIRTUAL_MACHINE_STATE)
    (mem : Nat → Nat) : RegionResult :=
  let VmcsRegion := env.alloc
  if VmcsRegion = 0 then
    { ret := false, vcpu := VCpu, mem := mem, logs := [LogEvent.errAllocVmcs] }
  else
    let VmcsPhysicalAddr := env.virtToPhys VmcsRegion
    let AlignedVmcsRegion := alignUp VmcsRegion
    let AlignedVmcsRegionPhysicalAddr := alignUp VmcsPhysicalAddr
    let rev := vmcsRevisionId env.vmxBasic
    let mem1 := fun a => if a = AlignedVmcsRegion then rev else mem a
    { ret := true,
      vcpu := { VCpu with
        VmcsRegionPhysicalAddress := AlignedVmcsRegionPhysicalAddr,
        VmcsRegionVirtualAddress := VmcsRegion },
      mem := mem1,
      logs := [LogEvent.dbgVmcsRegion AlignedVmcsRegion,
               LogEvent.dbgVmcsRegionPhys AlignedVmcsRegionPhysicalAddr,
               LogEvent.dbgRevisionId rev] }

/-- Outcome of one `ExAllocatePoolWithTag` call (0 = `NULL`). -/
structure PoolEnv where
  alloc : Nat

/-- Outcome of the primitives consumed by `VmxAllocateMsrBitmap`. -/
structure MsrBitmapEnv where
  alloc : Nat
  virtToPhys : Nat → Nat

/-- Outcome of the primitives consumed by `VmxAllocateIoBitmaps`: one pool
allocation for bitmap A, one for bitmap B, and the translation service. -/
structure IoBitmapEnv where
  allocA : Nat
  allocB : Nat
  virtToPhys : Nat → Nat

/-- Result of an auxiliary buffer allocator: `BOOLEAN` return value, updated
context and the diagnostics emitted. -/
structure AllocResult where
  ret : Bool
  vcpu : VIRTUAL_MACHINE_STATE
  logs : List LogEvent

/-- Shallow embedding of `VmxAllocateVmmStack` (VmxRegions.c:170-187): the
pool allocation result is assigned to `VCpu->VmmStack` before the `NULL`
check, so a failed allocation leaves `0` in the field. -/
def VmxAllocateVmmStack (env : PoolEnv) (VCpu : VIRTUAL_MACHINE_STATE) :
    AllocResult :=
  let v1 := { VCpu with VmmStack := env.alloc }
  if env.alloc = 0 then
    { ret := false, vcpu := v1, logs := [LogEvent.errAllocVmmStack] }
  else
    { ret := true, vcpu := v1, logs := [LogEvent.dbgVmmStack env.alloc] }

/-- Shallow embedding of `VmxAllocateMsrBitmap` (VmxRegions.c:195-215): the
pool allocation result is assigned to the virtual-address field before the
`NULL` check; on success the physical address is translated and stored. -/
def VmxAllocateMsrBitmap (env : MsrBitmapEnv) (VCpu : VIRTUAL_MACHINE_STATE) :
    AllocResult :=
  let v1 := { VCpu with MsrBitmapVirtualAddress := env.alloc }
  if env.alloc = 0 then
    { ret := false, vcpu := v1, logs := [LogEvent.errAllocMsrBitmap] }
  else
    let v2 := { v1 with MsrBitmapPhysicalAddress := env.virtToPhys env.alloc }
    { ret := true, vcpu := v2,
      logs := [LogEvent.dbgMsrBitmap env.alloc (env.virtToPhys env.alloc)] }

/-- Shallow embedding of `VmxAllocateIoBitmaps` (VmxRegions.c:224-261):
bitmap A is allocated, checked and published first; then bitmap B.  Each pool
result is assigned to the corresponding virtual-address field before its
`NULL` check. -/
def VmxAllocateIoBitmaps (env : IoBitmapEnv) (VCpu : VIRTUAL_MACHINE_STATE) :
    AllocResult :=
  let v1 := { VCpu with IoBitmapVirtualAddressA := env.allocA }
  if env.allocA = 0 then
    { ret := false, vcpu := v1, logs := [LogEvent.errAllocIoBitmapA] }
  else
    let v2 := { v1 with IoBitmapPhysicalAddressA := env.virtToPhys env.allocA }
    let logA := LogEvent.dbgIoBitmapA env.allocA (env.virtToPhys env.allocA)
    let v3 := { v2 with IoBitmapVirtualAddressB := env.allocB }
    if env.allocB = 0 then
      { ret := false, vcpu := v3, logs := [logA, LogEvent.errAllocIoBitmapB] }
    else
      let v4 := { v3 with IoBitmapPhysicalAddressB := env.virtToPhys env.allocB }
      { ret := true, vcpu := v4,
        logs := [logA, LogEvent.dbgIoBitmapB env.allocB (env.virtToPhys env.allocB)] }

/-- Outcome of a hardware `__readmsr` attempt: either a value, or the
exception (`#GP`) caught by the `__try` / `__except` scope. -/
inductive MsrReadResult
  | value (v : Nat)
  | fault
  deriving DecidableEq

/-- Outcome of the primitives consumed by `VmxAllocateInvalidMsrBimap`: the
pool allocation (0 = `NULL`) and the per-index MSR read primitive. -/
structure ProbeEnv where
  alloc : Nat
  readMsr : Nat → MsrReadResult

/-- Modelled from the spec: `SetBit` is a bit-manipulation helper that is not
under `src/`; per the spec it sets the bit corresponding to the given index
in a bitmap holding one bit per possible MSR index. -/
def SetBit (i : Nat) (bm : Nat → Bool) : Nat → Bool :=
  fun j => if j = i then true else bm j

/-- One iteration of the probing loop in `VmxAllocateInvalidMsrBimap`: try
`__readmsr(i)`; if it faults, set bit `i`; either way the loop continues. -/
def probeStep (env : ProbeEnv) (bm : Nat → Bool) (i : Nat) : Nat → Bool :=
  match env.readMsr i with
  | MsrReadResult.value _ => bm
  | MsrReadResult.fault => SetBit i bm

/-- Shallow embedding of `VmxAllocateInvalidMsrBimap` (VmxRegions.c:269-295):
allocate `0x1000 / 0x8` bytes (4096 bits), zero them, probe every MSR index
`0..0xFFF`, setting the bit for each index whose read faults; return `NULL`
exactly when the pool allocation fails. -/
def VmxAllocateInvalidMsrBimap (env : ProbeEnv) : Option (Nat → Bool) :=
  if env.alloc = 0 then none
  else some ((List.range 0x1000).foldl (probeStep env) (fun _ => false))

/-- A probe step can only turn bits on, and it turns on exactly the bit of a
faulting index. -/
theorem probeStep_spec (env : ProbeEnv) (bm : Nat → Bool) (i j : Nat) :
    (probeStep env bm i) j = true ↔
      (j = i ∧ env.readMsr i = MsrReadResult.fault) ∨ bm j = true := by
  unfold probeStep SetBit
  cases h : env.readMsr i with
  | value v => simp [h]
  | fault =>
    by_cases hji : j = i
    · simp [hji]
    · simp [hji]

/-- Characterization of the probing loop: after folding over the first `n`
indices starting from the zeroed bitmap, bit `j` is set exactly when `j` is
one of the visited indices and its read faulted. -/
theorem probe_foldl_spec (env : ProbeEnv) (n j : Nat) :
    ((List.range n).foldl (probeStep env) (fun _ => false)) j = true ↔
      (j < n ∧ env.readMsr j = MsrReadResult.fault) := by
  induction n with
  | zero => simp
  | succ n ih =>
    rw [List.range_succ, List.foldl_append, List.foldl_cons, List.foldl_nil,
      probeStep_spec, ih]
    constructor
    · rintro (⟨rfl, hf⟩ | ⟨hj, hf⟩)
      · exact ⟨Nat.lt_succ_self _, hf⟩
      · exact ⟨Nat.lt_succ_of_lt hj, hf⟩
    · rintro ⟨hj, hf⟩
      rcases Nat.lt_succ_iff_lt_or_eq.mp hj with h | rfl
      · exact Or.inr ⟨h, hf⟩
      · exact Or.inl ⟨rfl, hf⟩

/-- C1: `VmxAllocateInvalidMsrBimap` returns a 4096-bit bitmap in which, for
every MSR index `0..4095`, the bit at that index is set iff the MSR read
primitive at that index raised a fault (and bits outside `0..4095` are
clear, the bitmap having exactly 4096 bits); the probing loop visits every
index regardless of faults at earlier indices, and the function returns
`NULL` exactly when the allocation of the bitmap itself fails. -/
theorem C1_invalidMsrBitmap_correct (env : ProbeEnv) :
    (VmxAllocateInvalidMsrBimap env = none ↔ env.alloc = 0) ∧
    (∀ bm, VmxAllocateInvalidMsrBimap env = some bm →
      ∀ i, bm i = true ↔ (i < 4096 ∧ env.readMsr i = MsrReadResult.fault)) := by
  constructor
  · unfold VmxAllocateInvalidMsrBimap
    by_cases h : env.alloc = 0 <;> simp [h]
  · intro bm hbm i
    unfold VmxAllocateInvalidMsrBimap at hbm
    by_cases h : env.alloc = 0
    · simp [h] at hbm
    · simp only [h, if_false, if_neg, Option.some.injEq] at hbm
      rw [← hbm]
      exact probe_foldl_spec env 4096 i

/-- A concrete probing environment: the allocation succeeds and only the
read of MSR index 7 faults. -/
def probeEnvW : ProbeEnv :=
  { alloc := 1,
    readMsr := fun i => if i = 7 then MsrReadResult.fault else MsrReadResult.value 0 }

/-- The bitmap the prober builds in the environment `probeEnvW`. -/
def bmW : Nat → Bool :=
  (List.range 0x1000).foldl (probeStep probeEnvW) (fun _ => false)

/-- Witness for C1 at the concrete environment `probeEnvW`. -/
theorem C1_invalidMsrBitmap_correct_witness :
    VmxAllocateInvalidMsrBimap probeEnvW = some bmW ∧
      (bmW 7 = true ↔ (7 < 4096 ∧ probeEnvW.readMsr 7 = MsrReadResult.fault)) :=
  ⟨rfl, (C1_invalidMsrBitmap_correct probeEnvW).2 bmW rfl 7⟩

/-- C2: for every successful `VmxAllocateVmxonRegion` / `VmxAllocateVmcsRegion`
call, the 64-bit value stored at offset 0 of the aligned region equals the low
31 bits of the `IA32_VMX_BASIC` value read during the allocation; when the
capability register reports revision identifier `0x1F`, the first 8 bytes of
the VMCS region read back as the 64-bit value 31. -/
theorem C2_revision_stamp (e1 : VmxonEnv) (e2 : VmcsEnv)
    (V1 V2 : VIRTUAL_MACHINE_STATE) (m1 m2 : Nat → Nat) :
    ((VmxAllocateVmxonRegion e1 V1 m1).ret = true →
      (VmxAllocateVmxonRegion e1 V1 m1).mem (alignUp e1.alloc) = e1.vmxBasic % 2 ^ 31) ∧
    ((VmxAllocateVmcsRegion e2 V2 m2).ret = true →
      (VmxAllocateVmcsRegion e2 V2 m2).mem (alignUp e2.alloc) = e2.vmxBasic % 2 ^ 31) ∧
    ((VmxAllocateVmcsRegion e2 V2 m2).ret = true → vmcsRevisionId e2.vmxBasic = 0x1F →
      (VmxAllocateVmcsRegion e2 V2 m2).mem (alignUp e2.alloc) = 31) := by
  refine ⟨?_, ?_, ?_⟩
  · intro hret
    unfold VmxAllocateVmxonRegion at *
    by_cases h : e1.alloc = 0
    · simp [h] at hret
    · by_cases hs : e1.vmxonStatus = 0
      · simp [h, hs, vmcsRevisionId]
      · simp [h, hs] at hret
  · intro hret
    unfold VmxAllocateVmcsRegion at *
    by_cases h : e2.alloc = 0
    · simp [h] at hret
    · simp [h, vmcsRevisionId]
  · intro hret hrev
    unfold VmxAllocateVmcsRegion at *
    by_cases h : e2.alloc = 0
    · simp [h] at hret
    · unfold vmcsRevisionId at hrev
      simp [h, vmcsRevisionId]
      norm_num at hrev
      exact hrev

/-- A concrete VMXON environment in which every primitive succeeds and the
capability register reports revision identifier `0x1F`. -/
def vmxonEnvOk : VmxonEnv :=
  { alloc := 0x2000, virtToPhys := id, vmxBasic := 0x1F, vmxonStatus := 0 }

/-- A concrete VMCS environment in which the allocation succeeds and the
capability register reports revision identifier `0x1F`. -/
def vmcsEnvOk : VmcsEnv := { alloc := 0x2000, virtToPhys := id, vmxBasic := 0x1F }

/-- The all-zero initial memory used by the concrete scenarios. -/
def memZero : Nat → Nat := fun _ => 0

/-- Witness for C2 at the concrete environments `vmxonEnvOk` / `vmcsEnvOk`. -/
theorem C2_revision_stamp_witness :
    (VmxAllocateVmxonRegion vmxonEnvOk vcpuEmpty memZero).mem (alignUp vmxonEnvOk.alloc) =
        vmxonEnvOk.vmxBasic % 2 ^ 31 ∧
      (VmxAllocateVmcsRegion vmcsEnvOk vcpuEmpty memZero).mem (alignUp vmcsEnvOk.alloc) =
        vmcsEnvOk.vmxBasic % 2 ^ 31 ∧
      (VmxAllocateVmcsRegion vmcsEnvOk vcpuEmpty memZero).mem (alignUp vmcsEnvOk.alloc) = 31 := by
  have h := C2_revision_stamp vmxonEnvOk vmcsEnvOk vcpuEmpty vcpuEmpty memZero memZero
  exact ⟨h.1 (by decide), h.2.1 (by decide), h.2.2 (by decide) (by decide)⟩

/-- C3 as stated quantifies over every buffer start address, but the rounding
`(addr + 4095) & ~4095` is computed in 64-bit `ULONG_PTR` arithmetic and wraps:
at the address `2 ^ 64 - 1` it yields 0, which is not greater than or equal to
the start address, hence not the least such multiple of 4096. -/
theorem C3_alignUp_counterexample :
    alignUp (2 ^ 64 - 1) = 0 ∧ ¬(2 ^ 64 - 1 ≤ alignUp (2 ^ 64 - 1)) := by
  constructor <;> decide

/-- C3 amended: for every buffer start address whose page-rounding addition
does not overflow 64 bits (`addr + 4095 < 2 ^ 64`, true of every real
allocation), the aligned address is the least multiple of 4096 greater than or
equal to the start address; hence it is a multiple of 4096 and lies less than
one page beyond the start, so a full region of `2 * region-size` bytes fits
inside the allocation of `2 * region-size + page-size` bytes. -/
theorem C3_alignUp_correct (a : Nat) (h : a + (ALIGNMENT_PAGE_SIZE - 1) < 2 ^ 64) :
    alignUp a % 4096 = 0 ∧
    a ≤ alignUp a ∧
    alignUp a < a + 4096 ∧
    (∀ m, m % 4096 = 0 → a ≤ m → alignUp a ≤ m) ∧
    (∀ S, alignUp a + 2 * S ≤ a + (2 * S + ALIGNMENT_PAGE_SIZE)) := by
  have he := alignUp_eq a h
  rw [he]
  unfold ALIGNMENT_PAGE_SIZE
  refine ⟨by omega, by omega, by omega, ?_, ?_⟩
  · intro m hm ha
    omega
  · intro S
    omega

/-- Witness for C3 at the concrete start address 5000. -/
theorem C3_alignUp_correct_witness :
    5000 + (ALIGNMENT_PAGE_SIZE - 1) < 2 ^ 64 ∧ alignUp 5000 % 4096 = 0 ∧
      5000 ≤ alignUp 5000 ∧ alignUp 5000 < 5000 + 4096 ∧ alignUp 5000 ≤ 8192 ∧
      alignUp 5000 + 2 * 4096 ≤ 5000 + (2 * 4096 + ALIGNMENT_PAGE_SIZE) := by
  have h : 5000 + (ALIGNMENT_PAGE_SIZE - 1) < 2 ^ 64 := by decide
  have hc := C3_alignUp_correct 5000 h
  exact ⟨h, hc.1, hc.2.1, hc.2.2.1,
    hc.2.2.2.1 8192 (by decide) (by decide), hc.2.2.2.2 4096⟩

/-- C4: `VmxAllocateVmxonRegion` returns false iff the buffer allocation fails
or the `vmxon` instruction returns a non-zero status; in both failure cases a
diagnostic (a distinct one per failure kind) is logged before returning, and
on success the function returns true. -/
theorem C4_vmxon_failure_modes (env : VmxonEnv) (VCpu : VIRTUAL_MACHINE_STATE)
    (mem : Nat → Nat) :
    ((VmxAllocateVmxonRegion env VCpu mem).ret = false ↔
      (env.alloc = 0 ∨ env.vmxonStatus ≠ 0)) ∧
    (env.alloc = 0 →
      LogEvent.errAllocVmxon ∈ (VmxAllocateVmxonRegion env VCpu mem).logs) ∧
    (env.alloc ≠ 0 → env.vmxonStatus ≠ 0 →
      LogEvent.errVmxonFailed env.vmxonStatus ∈
        (VmxAllocateVmxonRegion env VCpu mem).logs) := by
  unfold VmxAllocateVmxonRegion
  by_cases h : env.alloc = 0
  · simp [h]
  · by_cases hs : env.vmxonStatus = 0
    · simp [h, hs]
    · simp [h, hs]

/-- A concrete VMXON environment in which the buffer allocation fails. -/
def vmxonEnvFailAlloc : VmxonEnv :=
  { alloc := 0, virtToPhys := id, vmxBasic := 0x1F, vmxonStatus := 0 }

/-- A concrete VMXON environment in which the allocation succeeds but the
`vmxon` instruction returns status 1. -/
def vmxonEnvFailVmxon : VmxonEnv :=
  { alloc := 0x2000, virtToPhys := id, vmxBasic := 0x1F, vmxonStatus := 1 }

/-- Witness for C4 at the concrete environments `vmxonEnvFailAlloc` and
`vmxonEnvFailVmxon`. -/
theorem C4_vmxon_failure_modes_witness :
    ((VmxAllocateVmxonRegion vmxonEnvFailAlloc vcpuEmpty memZero).ret = false ↔
      (vmxonEnvFailAlloc.alloc = 0 ∨ vmxonEnvFailAlloc.vmxonStatus ≠ 0)) ∧
    LogEvent.errAllocVmxon ∈
      (VmxAllocateVmxonRegion vmxonEnvFailAlloc vcpuEmpty memZero).logs ∧
    LogEvent.errVmxonFailed 1 ∈
      (VmxAllocateVmxonRegion vmxonEnvFailVmxon vcpuEmpty memZero).logs :=
  ⟨(C4_vmxon_failure_modes vmxonEnvFailAlloc vcpuEmpty memZero).1,
   (C4_vmxon_failure_modes vmxonEnvFailAlloc vcpuEmpty memZero).2.1 rfl,
   (C4_vmxon_failure_modes vmxonEnvFailVmxon vcpuEmpty memZero).2.2
     (by decide) (by decide)⟩

/-- C5 as stated fails on the code: with the `vmxon` primitive stubbed to
return status 1 and the allocation succeeding, `VmxAllocateVmxonRegion`
returns false *without* populating any address in the processor context — the
virtual- and physical-address fields of the context remain 0 (`NULL`). -/
theorem C5_counterexample :
    (VmxAllocateVmxonRegion vmxonEnvFailVmxon vcpuEmpty memZero).ret = false ∧
    vmxonEnvFailVmxon.alloc ≠ 0 ∧
    (VmxAllocateVmxonRegion vmxonEnvFailVmxon vcpuEmpty
        memZero).vcpu.VmxonRegionVirtualAddress = 0 ∧
    (VmxAllocateVmxonRegion vmxonEnvFailVmxon vcpuEmpty
        memZero).vcpu.VmxonRegionPhysicalAddress = 0 := by
  refine ⟨?_, by decide, ?_, ?_⟩ <;> rfl

/-- C5 amended: when the `vmxon` primitive is stubbed to return status 1 and
the allocation succeeds, `VmxAllocateVmxonRegion` has still produced a valid
aligned VMXON region — the buffer is allocated and the revision identifier is
stamped at the aligned address — but the call reports failure and leaves the
processor context unchanged: the addresses of the region are *not* populated in the
context, so the processor is not marked virtualization-active. -/
theorem C5_vmxon_failure_still_builds_region (env : VmxonEnv)
    (VCpu : VIRTUAL_MACHINE_STATE) (mem : Nat → Nat)
    (h : env.alloc ≠ 0) (hs : env.vmxonStatus = 1) :
    (VmxAllocateVmxonRegion env VCpu mem).ret = false ∧
    (VmxAllocateVmxonRegion env VCpu mem).mem (alignUp env.alloc) =
      vmcsRevisionId env.vmxBasic ∧
    (VmxAllocateVmxonRegion env VCpu mem).vcpu = VCpu := by
  unfold VmxAllocateVmxonRegion
  simp [h, hs]

/-- Witness for the amended C5 at the concrete environment
`vmxonEnvFailVmxon`. -/
theorem C5_vmxon_failure_still_builds_region_witness :
    (VmxAllocateVmxonRegion vmxonEnvFailVmxon vcpuEmpty memZero).ret = false ∧
    (VmxAllocateVmxonRegion vmxonEnvFailVmxon vcpuEmpty memZero).mem
        (alignUp vmxonEnvFailVmxon.alloc) = vmcsRevisionId vmxonEnvFailVmxon.vmxBasic ∧
    (VmxAllocateVmxonRegion vmxonEnvFailVmxon vcpuEmpty memZero).vcpu = vcpuEmpty :=
  C5_vmxon_failure_still_builds_region vmxonEnvFailVmxon vcpuEmpty memZero
    (by decide) (by decide)

/-- The probing environment of the C6 scenario: the allocation succeeds and
the MSR read primitive faults only at index `0xC0000080`. -/
def probeEnvEfer : ProbeEnv :=
  { alloc := 1,
    readMsr := fun i =>
      if i = 0xC0000080 then MsrReadResult.fault else MsrReadResult.value 0 }

/-- The bitmap the prober builds in the environment `probeEnvEfer`. -/
def bmEfer : Nat → Bool :=
  (List.range 0x1000).foldl (probeStep probeEnvEfer) (fun _ => false)

/-- C6 as stated fails on the code: the probing loop visits only indices
`0..0xFFF` and the bitmap has only 4096 bits, so a fault stubbed at index
`0xC0000080` is never observed and the bit at index `0xC0000080` is clear,
not set. -/
theorem C6_counterexample :
    VmxAllocateInvalidMsrBimap probeEnvEfer = some bmEfer ∧
    bmEfer 0xC0000080 = false := by
  refine ⟨rfl, ?_⟩
  cases hb : bmEfer 0xC0000080 with
  | false => rfl
  | true =>
    have h := (probe_foldl_spec probeEnvEfer 0x1000 0xC0000080).mp hb
    exact absurd h.1 (by decide)

/-- C6 amended: with the MSR read primitive stubbed to fault only at index
`0xC0000080`, the probing loop - which visits only the 4096 bitmap indices
`0..4095` - observes no fault, so after `VmxAllocateInvalidMsrBimap`
completes every bit of the returned bitmap is clear. -/
theorem C6_efer_probe_all_clear :
    VmxAllocateInvalidMsrBimap probeEnvEfer = some bmEfer ∧
    ∀ j, bmEfer j = false := by
  refine ⟨rfl, ?_⟩
  intro j
  cases hb : bmEfer j with
  | false => rfl
  | true =>
    rcases (probe_foldl_spec probeEnvEfer 0x1000 j).mp hb with ⟨hj, hf⟩
    have hne : ¬(j = 0xC0000080) := by omega
    unfold probeEnvEfer at hf
    simp [hne] at hf

/-- C7: for every allocation operation (VMXON region, VMCS region, VMM stack,
MSR bitmap, I/O bitmaps), if the underlying allocation for a structure fails,
the operation returns false and publishes no address for that failed
structure in the processor context: the region allocators leave the context
untouched, and the pool allocators leave `0` (`NULL`) in the fields of the
failed structure (starting from the empty context). -/
theorem C7_alloc_failure_publishes_nothing :
    (∀ (env : VmxonEnv) (VCpu : VIRTUAL_MACHINE_STATE) (mem : Nat → Nat),
      env.alloc = 0 →
      (VmxAllocateVmxonRegion env VCpu mem).ret = false ∧
      (VmxAllocateVmxonRegion env VCpu mem).vcpu = VCpu) ∧
    (∀ (env : VmcsEnv) (VCpu : VIRTUAL_MACHINE_STATE) (mem : Nat → Nat),
      env.alloc = 0 →
      (VmxAllocateVmcsRegion env VCpu mem).ret = false ∧
      (VmxAllocateVmcsRegion env VCpu mem).vcpu = VCpu) ∧
    (∀ env : PoolEnv, env.alloc = 0 →
      (VmxAllocateVmmStack env vcpuEmpty).ret = false ∧
      (VmxAllocateVmmStack env vcpuEmpty).vcpu.VmmStack = 0) ∧
    (∀ env : MsrBitmapEnv, env.alloc = 0 →
      (VmxAllocateMsrBitmap env vcpuEmpty).ret = false ∧
      (VmxAllocateMsrBitmap env vcpuEmpty).vcpu.MsrBitmapVirtualAddress = 0 ∧
      (VmxAllocateMsrBitmap env vcpuEmpty).vcpu.MsrBitmapPhysicalAddress = 0) ∧
    (∀ env : IoBitmapEnv, env.allocA = 0 →
      (VmxAllocateIoBitmaps env vcpuEmpty).ret = false ∧
      (VmxAllocateIoBitmaps env vcpuEmpty).vcpu.IoBitmapVirtualAddressA = 0 ∧
      (VmxAllocateIoBitmaps env vcpuEmpty).vcpu.IoBitmapPhysicalAddressA = 0 ∧
      (VmxAllocateIoBitmaps env vcpuEmpty).vcpu.IoBitmapVirtualAddressB = 0 ∧
      (VmxAllocateIoBitmaps env vcpuEmpty).vcpu.IoBitmapPhysicalAddressB = 0) ∧
    (∀ env : IoBitmapEnv, env.allocA ≠ 0 → env.allocB = 0 →
      (VmxAllocateIoBitmaps env vcpuEmpty).ret = false ∧
      (VmxAllocateIoBitmaps env vcpuEmpty).vcpu.IoBitmapVirtualAddressB = 0 ∧
      (VmxAllocateIoBitmaps env vcpuEmpty).vcpu.IoBitmapPhysicalAddressB = 0) := by
  refine ⟨?_, ?_, ?_, ?_, ?_, ?_⟩
  · intro env VCpu mem h
    unfold VmxAllocateVmxonRegion
    simp [h]
  · intro env VCpu mem h
    unfold VmxAllocateVmcsRegion
    simp [h]
  · intro env h
    unfold VmxAllocateVmmStack
    simp [h]
  · intro env h
    unfold VmxAllocateMsrBitmap
    simp [h, vcpuEmpty]
  · intro env h
    unfold VmxAllocateIoBitmaps
    simp [h, vcpuEmpty]
  · intro env hA hB
    unfold VmxAllocateIoBitmaps
    simp [hA, hB, vcpuEmpty]

/-- A concrete VMCS environment in which the buffer allocation fails. -/
def vmcsEnvFailAlloc : VmcsEnv := { alloc := 0, virtToPhys := id, vmxBasic := 0x1F }

/-- A concrete I/O-bitmap environment in which the allocation of bitmap A
succeeds and the allocation of bitmap B fails. -/
def ioEnvBFail : IoBitmapEnv := { allocA := 0x1000, allocB := 0, virtToPhys := id }

/-- A concrete I/O-bitmap environment in which the allocation of bitmap A
fails. -/
def ioEnvAFail : IoBitmapEnv := { allocA := 0, allocB := 0x1000, virtToPhys := id }

/-- Witness for C7: each failing-allocation branch exercised at a concrete
environment. -/
theorem C7_alloc_failure_publishes_nothing_witness :
    ((VmxAllocateVmxonRegion vmxonEnvFailAlloc vcpuEmpty memZero).ret = false ∧
      (VmxAllocateVmxonRegion vmxonEnvFailAlloc vcpuEmpty memZero).vcpu = vcpuEmpty) ∧
    ((VmxAllocateVmcsRegion vmcsEnvFailAlloc vcpuEmpty memZero).ret = false ∧
      (VmxAllocateVmcsRegion vmcsEnvFailAlloc vcpuEmpty memZero).vcpu = vcpuEmpty) ∧
    ((VmxAllocateVmmStack { alloc := 0 } vcpuEmpty).ret = false ∧
      (VmxAllocateVmmStack { alloc := 0 } vcpuEmpty).vcpu.VmmStack = 0) ∧
    ((VmxAllocateMsrBitmap { alloc := 0, virtToPhys := id } vcpuEmpty).ret = false ∧
      (VmxAllocateMsrBitmap { alloc := 0, virtToPhys := id }
        vcpuEmpty).vcpu.MsrBitmapVirtualAddress = 0 ∧
      (VmxAllocateMsrBitmap { alloc := 0, virtToPhys := id }
        vcpuEmpty).vcpu.MsrBitmapPhysicalAddress = 0) ∧
    ((VmxAllocateIoBitmaps ioEnvAFail vcpuEmpty).ret = false ∧
      (VmxAllocateIoBitmaps ioEnvAFail vcpuEmpty).vcpu.IoBitmapVirtualAddressA = 0 ∧
      (VmxAllocateIoBitmaps ioEnvAFail vcpuEmpty).vcpu.IoBitmapPhysicalAddressA = 0 ∧
      (VmxAllocateIoBitmaps ioEnvAFail vcpuEmpty).vcpu.IoBitmapVirtualAddressB = 0 ∧
      (VmxAllocateIoBitmaps ioEnvAFail vcpuEmpty).vcpu.IoBitmapPhysicalAddressB = 0) ∧
    ((VmxAllocateIoBitmaps ioEnvBFail vcpuEmpty).ret = false ∧
      (VmxAllocateIoBitmaps ioEnvBFail vcpuEmpty).vcpu.IoBitmapVirtualAddressB = 0 ∧
      (VmxAllocateIoBitmaps ioEnvBFail vcpuEmpty).vcpu.IoBitmapPhysicalAddressB = 0) :=
  ⟨C7_alloc_failure_publishes_nothing.1 vmxonEnvFailAlloc vcpuEmpty memZero rfl,
   C7_alloc_failure_publishes_nothing.2.1 vmcsEnvFailAlloc vcpuEmpty memZero rfl,
   C7_alloc_failure_publishes_nothing.2.2.1 { alloc := 0 } rfl,
   C7_alloc_failure_publishes_nothing.2.2.2.1 { alloc := 0, virtToPhys := id } rfl,
   C7_alloc_failure_publishes_nothing.2.2.2.2.1 ioEnvAFail rfl,
   C7_alloc_failure_publishes_nothing.2.2.2.2.2 ioEnvBFail (by decide) rfl⟩

/-- C8: on every successful `VmxAllocateVmxonRegion` / `VmxAllocateVmcsRegion`
call, the virtual-address field stored in the context is the original
unaligned allocation pointer, while the physical-address field stored is the
aligned physical address. -/
theorem C8_success_stores_unaligned_virtual (e1 : VmxonEnv) (e2 : VmcsEnv)
    (V1 V2 : VIRTUAL_MACHINE_STATE) (m1 m2 : Nat → Nat) :
    ((VmxAllocateVmxonRegion e1 V1 m1).ret = true →
      (VmxAllocateVmxonRegion e1 V1 m1).vcpu.VmxonRegionVirtualAddress = e1.alloc ∧
      (VmxAllocateVmxonRegion e1 V1 m1).vcpu.VmxonRegionPhysicalAddress =
        alignUp (e1.virtToPhys e1.alloc)) ∧
    ((VmxAllocateVmcsRegion e2 V2 m2).ret = true →
      (VmxAllocateVmcsRegion e2 V2 m2).vcpu.VmcsRegionVirtualAddress = e2.alloc ∧
      (VmxAllocateVmcsRegion e2 V2 m2).vcpu.VmcsRegionPhysicalAddress =
        alignUp (e2.virtToPhys e2.alloc)) := by
  constructor
  · intro hret
    unfold VmxAllocateVmxonRegion at *
    by_cases h : e1.alloc = 0
    · simp [h] at hret
    · by_cases hs : e1.vmxonStatus = 0
      · simp [h, hs]
      · simp [h, hs] at hret
  · intro hret
    unfold VmxAllocateVmcsRegion at *
    by_cases h : e2.alloc = 0
    · simp [h] at hret
    · simp [h]

/-- Witness for C8 at the concrete environments `vmxonEnvOk` / `vmcsEnvOk`. -/
theorem C8_success_stores_unaligned_virtual_witness :
    ((VmxAllocateVmxonRegion vmxonEnvOk vcpuEmpty memZero).vcpu.VmxonRegionVirtualAddress =
        vmxonEnvOk.alloc ∧
      (VmxAllocateVmxonRegion vmxonEnvOk vcpuEmpty memZero).vcpu.VmxonRegionPhysicalAddress =
        alignUp (vmxonEnvOk.virtToPhys vmxonEnvOk.alloc)) ∧
    ((VmxAllocateVmcsRegion vmcsEnvOk vcpuEmpty memZero).vcpu.VmcsRegionVirtualAddress =
        vmcsEnvOk.alloc ∧
      (VmxAllocateVmcsRegion vmcsEnvOk vcpuEmpty memZero).vcpu.VmcsRegionPhysicalAddress =
        alignUp (vmcsEnvOk.virtToPhys vmcsEnvOk.alloc)) :=
  ⟨(C8_success_stores_unaligned_virtual vmxonEnvOk vmcsEnvOk vcpuEmpty vcpuEmpty
      memZero memZero).1 (by decide),
   (C8_success_stores_unaligned_virtual vmxonEnvOk vmcsEnvOk vcpuEmpty vcpuEmpty
      memZero memZero).2 (by decide)⟩

/-- C9: when the buffer allocation succeeds but `vmxon` returns a non-zero
status, `VmxAllocateVmxonRegion` returns false leaving every field of the
processor context unchanged; in particular, starting from the empty context,
the pointer to the successfully allocated buffer is stored nowhere in the
context, so the caller receives no handle with which to release it. -/
theorem C9_vmxon_failure_context_unchanged (env : VmxonEnv)
    (VCpu : VIRTUAL_MACHINE_STATE) (mem : Nat → Nat)
    (h : env.alloc ≠ 0) (hs : env.vmxonStatus ≠ 0) :
    (VmxAllocateVmxonRegion env VCpu mem).ret = false ∧
    (VmxAllocateVmxonRegion env VCpu mem).vcpu = VCpu ∧
    (VCpu = vcpuEmpty →
      (VmxAllocateVmxonRegion env VCpu mem).vcpu.VmxonRegionVirtualAddress ≠ env.alloc ∧
      (VmxAllocateVmxonRegion env VCpu mem).vcpu.VmxonRegionPhysicalAddress ≠
        env.virtToPhys env.alloc ∨ env.virtToPhys env.alloc = 0) := by
  unfold VmxAllocateVmxonRegion
  refine ⟨by simp [h, hs], by simp [h, hs], ?_⟩
  intro hV
  subst hV
  by_cases hp : env.virtToPhys env.alloc = 0
  · exact Or.inr hp
  · refine Or.inl ⟨?_, ?_⟩
    · simp [h, hs, vcpuEmpty]
      omega
    · simp [h, hs, vcpuEmpty]
      omega

/-- Witness for C9 at the concrete environment `vmxonEnvFailVmxon`. -/
theorem C9_vmxon_failure_context_unchanged_witness :
    (VmxAllocateVmxonRegion vmxonEnvFailVmxon vcpuEmpty memZero).ret = false ∧
    (VmxAllocateVmxonRegion vmxonEnvFailVmxon vcpuEmpty memZero).vcpu = vcpuEmpty ∧
    (vcpuEmpty = vcpuEmpty →
      (VmxAllocateVmxonRegion vmxonEnvFailVmxon vcpuEmpty
          memZero).vcpu.VmxonRegionVirtualAddress ≠ vmxonEnvFailVmxon.alloc ∧
      (VmxAllocateVmxonRegion vmxonEnvFailVmxon vcpuEmpty
          memZero).vcpu.VmxonRegionPhysicalAddress ≠
        vmxonEnvFailVmxon.virtToPhys vmxonEnvFailVmxon.alloc ∨
      vmxonEnvFailVmxon.virtToPhys vmxonEnvFailVmxon.alloc = 0) :=
  C9_vmxon_failure_context_unchanged vmxonEnvFailVmxon vcpuEmpty memZero
    (by decide) (by decide)

/-- The context of the C10 counterexample: a context in which the bitmap-B
virtual-address field already holds the non-null value 5 before the call. -/
def vcpuBSet : VIRTUAL_MACHINE_STATE := { vcpuEmpty with IoBitmapVirtualAddressB := 5 }

/-- C10 as stated fails on the code: on the path where the allocation of bitmap A
succeeds and that of bitmap B fails, the field `IoBitmapVirtualAddressB` is also
modified - the null allocation result is assigned to it before the `NULL`
check - so a field other than the two bitmap-A fields changes (here from 5
to 0). -/
theorem C10_counterexample :
    (VmxAllocateIoBitmaps ioEnvBFail vcpuBSet).ret = false ∧
    vcpuBSet.IoBitmapVirtualAddressB = 5 ∧
    (VmxAllocateIoBitmaps ioEnvBFail vcpuBSet).vcpu.IoBitmapVirtualAddressB = 0 := by
  refine ⟨?_, ?_, ?_⟩ <;> rfl

/-- C10 amended: when the allocation of I/O bitmap A succeeds and the
allocation of I/O bitmap B fails, `VmxAllocateIoBitmaps` returns false while
`IoBitmapVirtualAddressA` / `IoBitmapPhysicalAddressA` hold the published
addresses of bitmap A; besides those two fields, `IoBitmapVirtualAddressB` is
also modified on that path - it receives the null allocation result (0) - and
every remaining field is unmodified. -/
theorem C10_ioBitmapB_failure_frame (env : IoBitmapEnv)
    (VCpu : VIRTUAL_MACHINE_STATE) (hA : env.allocA ≠ 0) (hB : env.allocB = 0) :
    (VmxAllocateIoBitmaps env VCpu).ret = false ∧
    (VmxAllocateIoBitmaps env VCpu).vcpu.IoBitmapVirtualAddressA = env.allocA ∧
    (VmxAllocateIoBitmaps env VCpu).vcpu.IoBitmapPhysicalAddressA =
      env.virtToPhys env.allocA ∧
    (VmxAllocateIoBitmaps env VCpu).vcpu.IoBitmapVirtualAddressB = 0 ∧
    (VmxAllocateIoBitmaps env VCpu).vcpu.IoBitmapPhysicalAddressB =
      VCpu.IoBitmapPhysicalAddressB ∧
    (VmxAllocateIoBitmaps env VCpu).vcpu.VmxonRegionPhysicalAddress =
      VCpu.VmxonRegionPhysicalAddress ∧
    (VmxAllocateIoBitmaps env VCpu).vcpu.VmxonRegionVirtualAddress =
      VCpu.VmxonRegionVirtualAddress ∧
    (VmxAllocateIoBitmaps env VCpu).vcpu.VmcsRegionPhysicalAddress =
      VCpu.VmcsRegionPhysicalAddress ∧
    (VmxAllocateIoBitmaps env VCpu).vcpu.VmcsRegionVirtualAddress =
      VCpu.VmcsRegionVirtualAddress ∧
    (VmxAllocateIoBitmaps env VCpu).vcpu.VmmStack = VCpu.VmmStack ∧
    (VmxAllocateIoBitmaps env VCpu).vcpu.MsrBitmapVirtualAddress =
      VCpu.MsrBitmapVirtualAddress ∧
    (VmxAllocateIoBitmaps env VCpu).vcpu.MsrBitmapPhysicalAddress =
      VCpu.MsrBitmapPhysicalAddress := by
  unfold VmxAllocateIoBitmaps
  simp [hA, hB]

/-- Witness for the amended C10 at the concrete environment `ioEnvBFail` and
the context `vcpuBSet`. -/
theorem C10_ioBitmapB_failure_frame_witness :
    (VmxAllocateIoBitmaps ioEnvBFail vcpuBSet).ret = false ∧
    (VmxAllocateIoBitmaps ioEnvBFail vcpuBSet).vcpu.IoBitmapVirtualAddressA =
      ioEnvBFail.allocA ∧
    (VmxAllocateIoBitmaps ioEnvBFail vcpuBSet).vcpu.IoBitmapPhysicalAddressA =
      ioEnvBFail.virtToPhys ioEnvBFail.allocA ∧
    (VmxAllocateIoBitmaps ioEnvBFail vcpuBSet).vcpu.IoBitmapVirtualAddressB = 0 ∧
    (VmxAllocateIoBitmaps ioEnvBFail vcpuBSet).vcpu.IoBitmapPhysicalAddressB =
      vcpuBSet.IoBitmapPhysicalAddressB ∧
    (VmxAllocateIoBitmaps ioEnvBFail vcpuBSet).vcpu.VmxonRegionPhysicalAddress =
      vcpuBSet.VmxonRegionPhysicalAddress ∧
    (VmxAllocateIoBitmaps ioEnvBFail vcpuBSet).vcpu.VmxonRegionVirtualAddress =
      vcpuBSet.VmxonRegionVirtualAddress ∧
    (VmxAllocateIoBitmaps ioEnvBFail vcpuBSet).vcpu.VmcsRegionPhysicalAddress =
      vcpuBSet.VmcsRegionPhysicalAddress ∧
    (VmxAllocateIoBitmaps ioEnvBFail vcpuBSet).vcpu.VmcsRegionVirtualAddress =
      vcpuBSet.VmcsRegionVirtualAddress ∧
    (VmxAllocateIoBitmaps ioEnvBFail vcpuBSet).vcpu.VmmStack = vcpuBSet.VmmStack ∧
    (VmxAllocateIoBitmaps ioEnvBFail vcpuBSet).vcpu.MsrBitmapVirtualAddress =
      vcpuBSet.MsrBitmapVirtualAddress ∧
    (VmxAllocateIoBitmaps ioEnvBFail vcpuBSet).vcpu.MsrBitmapPhysicalAddress =
      vcpuBSet.MsrBitmapPhysicalAddress :=
  C10_ioBitmapB_failure_frame ioEnvBFail vcpuBSet (by decide) rfl
